import Mathlib

/-!
Verification of the Confluence Data Center MCP adapter (`main.go`).

The Go source is shallowly embedded as pure Lean functions:

* JSON argument bags (`map[string]any` in Go) become association lists of
  `JValue`s; a Go type assertion `args[k].(string)` becomes `Args.getStr`.
  JSON numbers arrive in Go as `float64` and are truncated with `int(v)` at
  every use site; we model a numeric argument as the `Int` it truncates to.
* `url.Values` becomes an association list of string pairs with map-like
  `set` (replace-or-insert) semantics.
* The HTTP transport is an oracle: each handler is parameterised by the
  outcome of the (at most one) GET and the (at most one) PUT/POST it can
  issue, and returns alongside its result the list of requests it issued, in
  order.  Response bodies (byte sequences in Go) are modelled as `String`s
  whose characters stand for bytes.
* `strings.TrimSpace` trims Unicode white space in Go; we model the ASCII
  white-space characters, which is what the expansion-token claims exercise.
-/

/-- A JSON value as it appears in an MCP argument bag.  Only the shapes the
handlers inspect are distinguished: strings, numbers (already truncated to
`Int`, see the header comment), and anything else. -/
inductive JValue where
  | str : String → JValue
  | num : Int → JValue
  | other : JValue
deriving Repr, DecidableEq

/-- An MCP argument bag: Go's `map[string]any`, as an association list
(first binding for a key wins). -/
def Args := List (String × JValue)

instance : DecidableEq Args := by unfold Args; exact inferInstance

/-- Look a key up in the bag. -/
def Args.getArg (args : Args) (k : String) : Option JValue :=
  (List.find? (fun p => p.1 = k) args).map (fun p => p.2)

/-- Go `v, ok := args[k].(string)`: `some s` iff the key is present and holds
a string. -/
def Args.getStr (args : Args) (k : String) : Option String :=
  match args.getArg k with
  | some (JValue.str s) => some s
  | _ => none

/-- Go `s, _ := args[k].(string)`: the string, or `""` when the key is absent
or not a string. -/
def Args.getStrD (args : Args) (k : String) : String :=
  (args.getStr k).getD ""

/-- Go `v, ok := args[k].(float64)`, with `int(v)` truncation folded in
(see the header comment). -/
def Args.getNum (args : Args) (k : String) : Option Int :=
  match args.getArg k with
  | some (JValue.num n) => some n
  | _ => none

/-- `b` starts with `a` (Go `strings.HasPrefix` on rune lists). -/
def listStartsWith : List Char → List Char → Bool
  | _, [] => true
  | [], _ :: _ => false
  | a :: as, b :: bs => a = b && listStartsWith as bs

/-- `s` contains `sub` as a contiguous sublist (Go `strings.Contains`). -/
def containsL (sub : List Char) : List Char → Bool
  | [] => sub.isEmpty
  | c :: rest => listStartsWith (c :: rest) sub || containsL sub rest

/-- Number of occurrences of `sub` in `s`, counting every start position.
For the fixed segment `/rest/api`, which cannot overlap itself, this agrees
with Go's non-overlapping `strings.Count`. -/
def countOccur (sub : List Char) : List Char → Nat
  | [] => 0
  | c :: rest => (if listStartsWith (c :: rest) sub then 1 else 0) + countOccur sub rest

/-- Go `strings.Contains s sub`. -/
def strContains (s sub : String) : Bool := containsL sub.toList s.toList

/-- Go `strings.HasPrefix s pre`. -/
def strHasPrefix (s pre : String) : Bool := listStartsWith s.toList pre.toList

/-- Go `strings.HasSuffix s suf`. -/
def strHasSuffix (s suf : String) : Bool := listStartsWith s.toList.reverse suf.toList.reverse

/-- Go `strings.TrimSuffix s suf`. -/
def strTrimSuffix (s suf : String) : String :=
  if strHasSuffix s suf then
    (s.toList.take (s.toList.length - suf.toList.length)).asString
  else s

/-- ASCII white space (the fragment of Go `unicode.IsSpace` these claims
exercise). -/
def isSpaceChar (c : Char) : Bool :=
  c = ' ' || c = '\t' || c = '\n' || c = '\r' || c = '\x0b' || c = '\x0c'

/-- Go `strings.TrimSpace` (over ASCII white space). -/
def trimSpace (s : String) : String :=
  ((s.toList.dropWhile isSpaceChar).reverse.dropWhile isSpaceChar).reverse.asString

/-- Worker for `splitComma`: `acc` is the current token, reversed. -/
def splitCommaAux : List Char → List Char → List String
  | acc, [] => [acc.reverse.asString]
  | acc, c :: rest =>
      if c = ',' then acc.reverse.asString :: splitCommaAux [] rest
      else splitCommaAux (c :: acc) rest

/-- Go `strings.Split s ","` (for the non-empty separator `","`; in
particular `"" ↦ [""]`). -/
def splitComma (s : String) : List String := splitCommaAux [] s.toList

/-- `ensureExpand` from `main.go`: add a property to an expansion string if
not already present as a trimmed comma-separated token. -/
def ensureExpand (current required : String) : String :=
  if current = "" then required
  else if (splitComma current).any (fun p => trimSpace p = required) then current
  else current ++ "," ++ required

example : ensureExpand "" "body.storage" = "body.storage" := by decide
example : ensureExpand "version" "body.storage" = "version,body.storage" := by decide
example : ensureExpand "body.storage" "body.storage" = "body.storage" := by decide

/-- Go `url.Values`, restricted to single-valued keys (the code only ever
uses `Set`, which replaces): an association list with replace-or-insert. -/
def Query := List (String × String)

instance : DecidableEq Query := by unfold Query; exact inferInstance

/-- The empty `url.Values`. -/
def Query.empty : Query := []

/-- Go `url.Values.Set`: replace any existing value for the key. -/
def Query.set (q : Query) (k v : String) : Query :=
  (List.filter (fun p => !(p.1 = k : Bool)) q) ++ [(k, v)]

/-- Look up a key, `none` when absent. -/
def Query.lookup (q : Query) (k : String) : Option String :=
  (List.find? (fun p => p.1 = k) q).map (fun p => p.2)

/-- Go `url.Values.Get`: the value, or `""` when absent. -/
def Query.getV (q : Query) (k : String) : String := (q.lookup k).getD ""

/-- `defaultLimit` from `main.go`. -/
def defaultLimit : Int := 25

/-- `newQueryWithCommonArgs` from `main.go`: populate `limit` (defaulted),
`start` (when supplied) and `expand` (when supplied non-empty). -/
def newQueryWithCommonArgs (args : Args) : Query :=
  let q := Query.empty
  let q := match args.getNum "limit" with
    | some n => q.set "limit" (toString n)
    | none => q.set "limit" (toString defaultLimit)
  let q := match args.getNum "start" with
    | some n => q.set "start" (toString n)
    | none => q
  match args.getStr "expand" with
  | some e => if e ≠ "" then q.set "expand" e else q
  | none => q

/-- `SpaceRef` from `main.go`. -/
structure SpaceRef where
  key : String
deriving Repr, DecidableEq

/-- `BodyStorage` from `main.go`. -/
structure BodyStorage where
  value : String
  representation : String
deriving Repr, DecidableEq

/-- `Body` from `main.go` (`Storage` is a nullable pointer). -/
structure Body where
  storage : Option BodyStorage
deriving Repr, DecidableEq

/-- `Version` from `main.go`. -/
structure Version where
  number : Int
  message : String
deriving Repr, DecidableEq

/-- `Ancestor` from `main.go`. -/
structure Ancestor where
  id : String
deriving Repr, DecidableEq

/-- `ConfluencePage` from `main.go`; Go nil pointers become `none`, the nil
slice becomes `[]`. -/
structure ConfluencePage where
  id : String := ""
  type : String := ""
  title : String := ""
  space : Option SpaceRef := none
  body : Option Body := none
  version : Option Version := none
  ancestors : List Ancestor := []
deriving Repr, DecidableEq

/-- The environment variables `loadConfig` reads; Go `os.Getenv` yields `""`
for an unset variable, so `""` means unset. -/
structure Env where
  token : String
  baseURL : String
  apiBasePath : String
  host : String
deriving Repr, DecidableEq

/-- `ConfluenceConfig` from `main.go`. -/
structure ConfluenceConfig where
  baseURL : String
  token : String
deriving Repr, DecidableEq

/-- The parts of a parsed `net/url.URL` that `loadConfig` touches. -/
structure URL where
  scheme : String
  host : String
  path : String
deriving Repr, DecidableEq

/-- `net/url.URL.String` for URLs of the shape `loadConfig` produces. -/
def URL.render (u : URL) : String := u.scheme ++ "://" ++ u.host ++ u.path

/-- Go scheme syntax: a letter followed by letters, digits, `+`, `-`, `.`. -/
def validScheme (s : String) : Bool :=
  match s.toList with
  | [] => false
  | c :: cs => c.isAlpha && cs.all (fun d => d.isAlphanum || d = '+' || d = '-' || d = '.')

/-- ASCII lower-casing of a scheme (Go lower-cases the scheme; schemes are
ASCII by construction of `validScheme`). -/
def lowerChar (c : Char) : Char :=
  if 'A' ≤ c ∧ c ≤ 'Z' then Char.ofNat (c.toNat + 32) else c

/-- Lower-case a string character-wise. -/
def lowerStr (s : String) : String := (s.toList.map lowerChar).asString

/-- Split `s` at the first `/`, if any; the slash stays with the tail. -/
def splitAtSlash (s : List Char) : Option (List Char × List Char) :=
  match s with
  | [] => none
  | c :: rest =>
      if c = '/' then some ([], c :: rest)
      else (splitAtSlash rest).map (fun p => (c :: p.1, p.2))

/-- Split `s` at the first occurrence of `sep` (dropped), if any. -/
def splitAtSep (sep : List Char) : List Char → Option (List Char × List Char)
  | [] => none
  | c :: rest =>
      if listStartsWith (c :: rest) sep then some ([], (c :: rest).drop sep.length)
      else (splitAtSep sep rest).map (fun p => (c :: p.1, p.2))

/-- Model of `net/url.Parse` for the inputs `loadConfig` feeds it: an
absolute URL `scheme://host[/path]` without query, fragment or user info
(inputs outside this fragment are not modelled and map to `none`).  As in
Go, the scheme is validated and lower-cased. -/
def parseURL (raw : String) : Option URL :=
  match splitAtSep "://".toList raw.toList with
  | some (schemeL, restL) =>
      let scheme := schemeL.asString
      if validScheme scheme && !containsL "?".toList restL && !containsL "#".toList restL then
        match splitAtSlash restL with
        | none => some ⟨lowerStr scheme, restL.asString, ""⟩
        | some (h, p) => some ⟨lowerStr scheme, h.asString, p.asString⟩
      else none
  | none => none

/-- The path normalization step of `loadConfig`: append `/rest/api` unless
the path already contains it. -/
def normalizeAPIPath (p : String) : String :=
  if strContains p "/rest/api" then p
  else strTrimSuffix p "/" ++ "/rest/api"

/-- The raw endpoint source of `loadConfig`: the first non-empty of the
three candidate environment variables, in priority order. -/
def rawEndpoint (env : Env) : String :=
  if env.baseURL ≠ "" then env.baseURL
  else if env.apiBasePath ≠ "" then env.apiBasePath
  else env.host

/-- The scheme-defaulting step of `loadConfig`: prefix `https://` when the
raw source has no scheme separator. -/
def withScheme (raw : String) : String :=
  if strContains raw "://" then raw else "https://" ++ raw

/-- `loadConfig` from `main.go`, with the final URL kept in structured form
(`loadConfig` below renders it). -/
def resolveURL (env : Env) : Except String URL :=
  if env.token = "" then
    Except.error "CONFLUENCE_API_TOKEN environment variable is required"
  else if rawEndpoint env = "" then
    Except.error "CONFLUENCE_BASE_URL (or CONFLUENCE_HOST) environment variable is required"
  else
    match parseURL (withScheme (rawEndpoint env)) with
    | none => Except.error "invalid base URL"
    | some u =>
        if ¬ strHasPrefix u.scheme "http" then
          Except.error "base URL must use http or https scheme"
        else
          Except.ok { u with path := normalizeAPIPath u.path }

/-- `loadConfig` from `main.go`. -/
def loadConfig (env : Env) : Except String ConfluenceConfig :=
  (resolveURL env).map (fun u => ⟨u.render, env.token⟩)

/-- A remote HTTP response as the two helpers see it: a status code and the
body (bytes modelled as characters). -/
structure HTTPResponse where
  status : Nat
  body : String
deriving Repr, DecidableEq

/-- `doRequest` from `main.go`, as a function of the response it got back:
status ≥ 400 becomes an error carrying the full body, otherwise the raw
body bytes are returned. -/
def doRequest (resp : HTTPResponse) : Except String String :=
  if resp.status ≥ 400 then
    Except.error ("API error (status " ++ toString resp.status ++ "): " ++ resp.body)
  else Except.ok resp.body

/-- Go `io.LimitReader(r, n)` + `ReadAll`: the first `n` bytes. -/
def takeBytes (n : Nat) (s : String) : String := (s.toList.take n).asString

/-- `getJSON` from `main.go`, as a function of the response and of the JSON
decoder (abstracted): status ≥ 400 becomes an error carrying at most 1024
bytes of the body; otherwise the body is decoded. -/
def getJSON (decode : String → Except String ConfluencePage) (resp : HTTPResponse) :
    Except String ConfluencePage :=
  if resp.status ≥ 400 then
    Except.error ("API error (status " ++ toString resp.status ++ "): " ++ takeBytes 1024 resp.body)
  else
    match decode resp.body with
    | Except.error e => Except.error ("failed to decode JSON: " ++ e)
    | Except.ok t => Except.ok t

/-- An HTTP request a handler hands to the transport client. -/
structure Request where
  method : String
  path : String
  query : Query
  body : Option ConfluencePage
deriving DecidableEq

/-- `mcp.CallToolResult`, restricted to the two shapes the handlers build:
`NewToolResultText` and `NewToolResultError`. -/
inductive ToolResult where
  | ok : String → ToolResult
  | error : String → ToolResult
deriving Repr, DecidableEq

/-- The payloads of the PUT requests in a trace.  (A handler outcome is the
tool result plus the requests issued, in order; each handler issues at most
one GET and at most one PUT/POST, so the remote is modelled by the outcome
of each potential call.) -/
def putBodies (trace : List Request) : List ConfluencePage :=
  trace.filterMap (fun r => if r.method = "PUT" then r.body else none)

/-- `handleGetContent` from `main.go`; `raw` is the outcome of the one
`doRequest` call it can make. -/
def handleGetContent (raw : Except String String) (args : Args) :
    ToolResult × List Request :=
  match args.getStr "contentId" with
  | none => (ToolResult.error "contentId must be a string and is required", [])
  | some contentID =>
    if contentID = "" then (ToolResult.error "contentId must be a string and is required", [])
    else if strContains contentID "/" || strContains contentID ".." then
      (ToolResult.error "invalid contentId format", [])
    else
      let query := newQueryWithCommonArgs args
      let query := query.set "expand" (ensureExpand (query.getV "expand") "body.storage")
      let req : Request := ⟨"GET", "/content/" ++ contentID, query, none⟩
      match raw with
      | Except.error e => (ToolResult.error ("error getting content: " ++ e), [req])
      | Except.ok s => (ToolResult.ok s, [req])

/-- `handleSearchContent` from `main.go`. -/
def handleSearchContent (raw : Except String String) (args : Args) :
    ToolResult × List Request :=
  match args.getStr "cql" with
  | none => (ToolResult.error "cql must be a string and is required", [])
  | some cql =>
    if cql = "" then (ToolResult.error "cql must be a string and is required", [])
    else
      let query := (newQueryWithCommonArgs args).set "cql" cql
      let req : Request := ⟨"GET", "/search", query, none⟩
      match raw with
      | Except.error e => (ToolResult.error ("error searching content: " ++ e), [req])
      | Except.ok s => (ToolResult.ok s, [req])

/-- `handleCreateContent` from `main.go`. -/
def handleCreateContent (raw : Except String String) (args : Args) :
    ToolResult × List Request :=
  match args.getStr "title" with
  | none => (ToolResult.error "title is required", [])
  | some title =>
    if title = "" then (ToolResult.error "title is required", [])
    else match args.getStr "spaceKey" with
    | none => (ToolResult.error "spaceKey is required", [])
    | some spaceKey =>
      if spaceKey = "" then (ToolResult.error "spaceKey is required", [])
      else match args.getStr "content" with
      | none => (ToolResult.error "content is required", [])
      | some contentStr =>
        if contentStr = "" then (ToolResult.error "content is required", [])
        else
          let typeStr := match args.getStr "type" with
            | some t => if t = "" then "page" else t
            | none => "page"
          let parentID := args.getStrD "parentId"
          let payload : ConfluencePage :=
            { type := typeStr
              title := title
              space := some ⟨spaceKey⟩
              body := some ⟨some ⟨contentStr, "storage"⟩⟩
              ancestors := if parentID ≠ "" then [⟨parentID⟩] else [] }
          let req : Request := ⟨"POST", "/content", Query.empty, some payload⟩
          match raw with
          | Except.error e => (ToolResult.error ("error creating content: " ++ e), [req])
          | Except.ok s => (ToolResult.ok s, [req])

/-- The PUT payload `handleUpdateContent` builds once the effective version
is known. -/
def updatePayload (args : Args) (contentID : String) (currentData : ConfluencePage)
    (newVersion : Int) : ConfluencePage :=
  let title := args.getStrD "title"
  let contentStr := args.getStrD "content"
  let versionComment := args.getStrD "versionComment"
  { id := contentID
    type := currentData.type
    title := if title ≠ "" then title else currentData.title
    space := currentData.space
    body := if contentStr ≠ "" then some ⟨some ⟨contentStr, "storage"⟩⟩ else currentData.body
    version := some ⟨newVersion, versionComment⟩
    ancestors := [] }

/-- The submit phase of `handleUpdateContent`. -/
def submitUpdate (putResp : Except String String) (contentID : String)
    (payload : ConfluencePage) (getReq : Request) : ToolResult × List Request :=
  let putReq : Request := ⟨"PUT", "/content/" ++ contentID, Query.empty, some payload⟩
  match putResp with
  | Except.error e => (ToolResult.error ("error updating content: " ++ e), [getReq, putReq])
  | Except.ok s => (ToolResult.ok s, [getReq, putReq])

/-- `handleUpdateContent` from `main.go`; `fetched` is the outcome of the
preliminary `getJSON` call, `putResp` that of the `doRequest` PUT. -/
def handleUpdateContent (fetched : Except String ConfluencePage)
    (putResp : Except String String) (args : Args) : ToolResult × List Request :=
  match args.getStr "contentId" with
  | none => (ToolResult.error "contentId is required", [])
  | some contentID =>
    if contentID = "" then (ToolResult.error "contentId is required", [])
    else if strContains contentID "/" || strContains contentID ".." then
      (ToolResult.error "invalid contentId format", [])
    else
      let query := (newQueryWithCommonArgs args).set "expand" "body.storage,version,space"
      let getReq : Request := ⟨"GET", "/content/" ++ contentID, query, none⟩
      match fetched with
      | Except.error e =>
          (ToolResult.error ("failed to retrieve current content: " ++ e), [getReq])
      | Except.ok currentData =>
        match args.getNum "version", currentData.version with
        | some v, _ =>
            submitUpdate putResp contentID (updatePayload args contentID currentData v) getReq
        | none, none =>
            (ToolResult.error "could not determine current version from API response", [getReq])
        | none, some ver =>
            submitUpdate putResp contentID
              (updatePayload args contentID currentData (ver.number + 1)) getReq

/-- `strings.ReplaceAll s "\x22" "\\\x22"` from `handleListSpaces`. -/
def replaceQuoteL : List Char → List Char
  | [] => []
  | c :: rest =>
      if c = '"' then '\\' :: '"' :: replaceQuoteL rest else c :: replaceQuoteL rest

/-- Escape every double quote with a backslash. -/
def escapeQuotes (s : String) : String := (replaceQuoteL s.toList).asString

/-- `handleListSpaces` from `main.go`. -/
def handleListSpaces (raw : Except String String) (args : Args) :
    ToolResult × List Request :=
  let searchText := args.getStrD "searchText"
  let cql :=
    if searchText = "" then "type=space"
    else "type=space AND title ~ \"" ++ escapeQuotes searchText ++ "\""
  let query := (newQueryWithCommonArgs args).set "cql" cql
  let req : Request := ⟨"GET", "/search", query, none⟩
  match raw with
  | Except.error e => (ToolResult.error ("error listing spaces: " ++ e), [req])
  | Except.ok s => (ToolResult.ok s, [req])

instance {ε α : Type} [DecidableEq ε] [DecidableEq α] : DecidableEq (Except ε α) := fun x y =>
  match x, y with
  | Except.error a, Except.error b =>
      if h : a = b then isTrue (by rw [h])
      else isFalse (by intro hh; injection hh with h2; exact h h2)
  | Except.error a, Except.ok b => isFalse (fun hh => Except.noConfusion hh)
  | Except.ok a, Except.error b => isFalse (fun hh => Except.noConfusion hh)
  | Except.ok a, Except.ok b =>
      if h : a = b then isTrue (by rw [h])
      else isFalse (by intro hh; injection hh with h2; exact h h2)

/-! ## Helper lemmas -/

theorem listStartsWith_refl (l : List Char) : listStartsWith l l = true := by
  induction l with
  | nil => rfl
  | cons c rest ih => simp [listStartsWith, ih]

theorem listStartsWith_iff (l pre : List Char) :
    listStartsWith l pre = true ↔ ∃ t, l = pre ++ t := by
  induction pre generalizing l with
  | nil => simp [listStartsWith]
  | cons b bs ih =>
    cases l with
    | nil => simp [listStartsWith]
    | cons a as =>
      simp only [listStartsWith, Bool.and_eq_true, decide_eq_true_eq, ih,
        List.cons_append, List.cons.injEq]
      aesop

theorem containsL_append_self (sub a : List Char) (h : sub ≠ []) :
    containsL sub (a ++ sub) = true := by
  induction a with
  | nil =>
    cases sub with
    | nil => simp at h
    | cons c rest => simp [containsL, listStartsWith_refl]
  | cons x xs ih => simp [containsL, ih]

theorem countOccur_pos (sub s : List Char) (hsub : sub ≠ [])
    (h : containsL sub s = true) : 1 ≤ countOccur sub s := by
  induction s with
  | nil =>
    cases sub with
    | nil => simp at hsub
    | cons c r => simp [containsL] at h
  | cons c rest ih =>
    simp only [containsL, Bool.or_eq_true] at h
    rcases h with h | h
    · simp [countOccur, h]
    · have := ih h
      simp only [countOccur]
      omega

theorem containsL_of_suffix (sub s : List Char) (hsub : sub ≠ [])
    (h : listStartsWith s.reverse sub.reverse = true) : containsL sub s = true := by
  obtain ⟨t, ht⟩ := (listStartsWith_iff _ _).mp h
  have hs : s = t.reverse ++ sub := by
    have h2 := congrArg List.reverse ht
    simpa using h2
  rw [hs]; exact containsL_append_self sub t.reverse hsub

theorem Query.lookup_nil (k : String) : Query.lookup [] k = none := rfl

theorem Query.lookup_cons (a : String × String) (rest : Query) (k : String) :
    Query.lookup (a :: rest) k = if a.1 = k then some a.2 else Query.lookup rest k := by
  unfold Query.lookup
  by_cases h : a.1 = k
  · rw [List.find?_cons_of_pos _ (by simp [h]), if_pos h]; rfl
  · rw [List.find?_cons_of_neg _ (by simp [h]), if_neg h]

theorem Query.set_nil (k v : String) : Query.set [] k v = [(k, v)] := rfl

theorem Query.set_cons (a : String × String) (rest : Query) (k v : String) :
    Query.set (a :: rest) k v =
      if a.1 = k then Query.set rest k v else a :: Query.set rest k v := by
  unfold Query.set
  by_cases h : a.1 = k
  · rw [List.filter_cons_of_neg (by simp [h]), if_pos h]
  · rw [List.filter_cons_of_pos (by simp [h]), if_neg h]; rfl

theorem Query.lookup_set_eq (q : Query) (k v : String) : (q.set k v).lookup k = some v := by
  induction q with
  | nil => simp [Query.set_nil, Query.lookup_cons, Query.lookup_nil]
  | cons a rest ih =>
    rw [Query.set_cons]
    by_cases h : a.1 = k
    · rw [if_pos h]; exact ih
    · rw [if_neg h, Query.lookup_cons, if_neg h]; exact ih

theorem Query.lookup_set_ne (q : Query) (k v k' : String) (h : k' ≠ k) :
    (q.set k v).lookup k' = q.lookup k' := by
  induction q with
  | nil =>
    rw [Query.set_nil, Query.lookup_cons, if_neg (fun he => h he.symm)]
  | cons a rest ih =>
    rw [Query.set_cons]
    by_cases ha : a.1 = k
    · rw [if_pos ha, ih, Query.lookup_cons, if_neg (by rw [ha]; exact fun he => h he.symm)]
    · rw [if_neg ha, Query.lookup_cons, Query.lookup_cons]
      by_cases hk : a.1 = k'
      · rw [if_pos hk, if_pos hk]
      · rw [if_neg hk, if_neg hk]; exact ih

theorem Args.getArg_cons (k : String) (v : JValue) (rest : Args) (k' : String) :
    Args.getArg ((k, v) :: rest) k' = if k = k' then some v else Args.getArg rest k' := by
  unfold Args.getArg
  by_cases h : k = k'
  · rw [List.find?_cons_of_pos _ (by simp [h]), if_pos h]; rfl
  · rw [List.find?_cons_of_neg _ (by simp [h]), if_neg h]

/-! ## Claim theorems -/

/-- C5: `ensureExpand "" "body.storage" = "body.storage"`,
`ensureExpand "version" "body.storage" = "version,body.storage"`,
`ensureExpand "body.storage" "body.storage" = "body.storage"`, and whenever
the current value already contains the required property as an exact
comma-separated token (after trimming white space), the output is the input
unchanged (so existing token order is preserved). -/
theorem ensureExpand_spec :
    ensureExpand "" "body.storage" = "body.storage" ∧
    ensureExpand "version" "body.storage" = "version,body.storage" ∧
    ensureExpand "body.storage" "body.storage" = "body.storage" ∧
    ∀ current required : String,
      (∃ p ∈ splitComma current, trimSpace p = required) →
      ensureExpand current required = current := by
  refine ⟨by decide, by decide, by decide, ?_⟩
  intro current required h
  obtain ⟨p, hp, ht⟩ := h
  by_cases hc : current = ""
  · subst hc
    have hp0 : p = "" := by
      have he : splitComma "" = [""] := rfl
      rw [he] at hp
      simpa using hp
    subst hp0
    have hr : required = "" := by
      have h0 : trimSpace "" = "" := rfl
      rw [h0] at ht
      exact ht.symm
    rw [hr]
    decide
  · unfold ensureExpand
    rw [if_neg hc, if_pos]
    exact List.any_eq_true.mpr ⟨p, hp, by simp [ht]⟩

/-- C5 witness: a value already containing the token (with surrounding
white space) is returned unchanged. -/
theorem ensureExpand_spec_witness :
    ensureExpand " body.storage ,version" "body.storage" = " body.storage ,version" :=
  ensureExpand_spec.2.2.2 " body.storage ,version" "body.storage"
    ⟨" body.storage ", by decide, by decide⟩

/-- C4: any `contentId` string containing `/` or `..` makes both get-content
and update-content return the invalid-format error result with an empty
request trace (no HTTP request is issued). -/
theorem traversal_rejected_no_request
    (raw : Except String String) (fetched : Except String ConfluencePage)
    (putResp : Except String String) (args : Args) (cid : String)
    (hid : args.getStr "contentId" = some cid)
    (h : strContains cid "/" = true ∨ strContains cid ".." = true) :
    handleGetContent raw args = (ToolResult.error "invalid contentId format", []) ∧
    handleUpdateContent fetched putResp args = (ToolResult.error "invalid contentId format", []) := by
  have hne : cid ≠ "" := by
    intro he; subst he
    rcases h with h | h <;> exact absurd h (by decide)
  have hor : (strContains cid "/" || strContains cid "..") = true := by
    rcases h with h | h <;> simp [h]
  constructor
  · simp only [handleGetContent, hid]
    rw [if_neg hne, if_pos hor]
  · simp only [handleUpdateContent, hid]
    rw [if_neg hne, if_pos hor]

/-- C4 witness: `contentId = "a/.."` is rejected by both handlers with no
request issued. -/
theorem traversal_rejected_no_request_witness :
    handleGetContent (Except.ok "x") [("contentId", JValue.str "a/..")] =
      (ToolResult.error "invalid contentId format", []) ∧
    handleUpdateContent (Except.ok {}) (Except.ok "y") [("contentId", JValue.str "a/..")] =
      (ToolResult.error "invalid contentId format", []) :=
  traversal_rejected_no_request (Except.ok "x") (Except.ok {}) (Except.ok "y")
    [("contentId", JValue.str "a/..")] "a/.." (by decide) (Or.inl (by decide))

/-- The preliminary GET request `handleUpdateContent` issues. -/
def updGetReq (args : Args) (cid : String) : Request :=
  ⟨"GET", "/content/" ++ cid,
    (newQueryWithCommonArgs args).set "expand" "body.storage,version,space", none⟩

theorem submitUpdate_trace (putResp : Except String String) (cid : String)
    (payload : ConfluencePage) (getReq : Request) :
    (submitUpdate putResp cid payload getReq).2 =
      [getReq, ⟨"PUT", "/content/" ++ cid, Query.empty, some payload⟩] := by
  cases putResp <;> rfl

theorem putBodies_get_put (g : Request) (hg : g.method = "GET")
    (p : String) (q : Query) (payload : ConfluencePage) :
    putBodies [g, ⟨"PUT", p, q, some payload⟩] = [payload] := by
  simp [putBodies, List.filterMap, hg]

theorem putBodies_get_only (g : Request) (hg : g.method = "GET") :
    putBodies [g] = [] := by
  simp [putBodies, List.filterMap, hg]

theorem handleUpdateContent_ok (putResp : Except String String) (args : Args)
    (cid : String) (page : ConfluencePage)
    (hid : args.getStr "contentId" = some cid) (hne : cid ≠ "")
    (hclean : (strContains cid "/" || strContains cid "..") = false) :
    handleUpdateContent (Except.ok page) putResp args =
      match args.getNum "version", page.version with
      | some v, _ =>
          submitUpdate putResp cid (updatePayload args cid page v) (updGetReq args cid)
      | none, none =>
          (ToolResult.error "could not determine current version from API response",
            [updGetReq args cid])
      | none, some ver =>
          submitUpdate putResp cid (updatePayload args cid page (ver.number + 1))
            (updGetReq args cid) := by
  simp only [handleUpdateContent, hid]
  rw [if_neg hne, if_neg (by simp [hclean])]
  rfl

/-- C1: when the preliminary GET of update-content succeeds: an explicit
numeric `version` argument is submitted verbatim regardless of the fetched
version; with no `version` argument the fetched version number plus one is
submitted; with no `version` argument and no version block on the fetched
item the handler returns an error result and issues no PUT. -/
theorem update_version_selection
    (putResp : Except String String) (args : Args) (cid : String) (page : ConfluencePage)
    (hid : args.getStr "contentId" = some cid) (hne : cid ≠ "")
    (hclean : (strContains cid "/" || strContains cid "..") = false) :
    (∀ v : Int, args.getNum "version" = some v →
      (putBodies (handleUpdateContent (Except.ok page) putResp args).2).map
        (fun p => p.version.map Version.number) = [some v]) ∧
    (args.getNum "version" = none → ∀ ver, page.version = some ver →
      (putBodies (handleUpdateContent (Except.ok page) putResp args).2).map
        (fun p => p.version.map Version.number) = [some (ver.number + 1)]) ∧
    (args.getNum "version" = none → page.version = none →
      handleUpdateContent (Except.ok page) putResp args =
        (ToolResult.error "could not determine current version from API response",
          [updGetReq args cid])) := by
  rw [handleUpdateContent_ok putResp args cid page hid hne hclean]
  refine ⟨?_, ?_, ?_⟩
  · intro v hv
    simp only [hv, submitUpdate_trace, updatePayload]
    rw [putBodies_get_put (updGetReq args cid) (by rfl)]
    simp
  · intro hv ver hver
    simp only [hv, hver, submitUpdate_trace, updatePayload]
    rw [putBodies_get_put (updGetReq args cid) (by rfl)]
    simp
  · intro hv hver
    simp only [hv, hver]

/-- C1 witness: explicit `version = 10` against a fetched version of 5
submits exactly 10; and absent `version` against fetched version 1 submits 2. -/
theorem update_version_selection_witness :
    ((putBodies (handleUpdateContent
        (Except.ok { title := "T", version := some ⟨5, ""⟩ }) (Except.ok "r")
        [("contentId", JValue.str "7"), ("version", JValue.num 10)]).2).map
      (fun p => p.version.map Version.number) = [some 10]) ∧
    ((putBodies (handleUpdateContent
        (Except.ok { title := "T", version := some ⟨1, ""⟩ }) (Except.ok "r")
        [("contentId", JValue.str "7")]).2).map
      (fun p => p.version.map Version.number) = [some 2]) :=
  ⟨(update_version_selection (Except.ok "r")
      [("contentId", JValue.str "7"), ("version", JValue.num 10)] "7"
      { title := "T", version := some ⟨5, ""⟩ }
      (by decide) (by decide) (by decide)).1 10 (by decide),
   (update_version_selection (Except.ok "r")
      [("contentId", JValue.str "7")] "7"
      { title := "T", version := some ⟨1, ""⟩ }
      (by decide) (by decide) (by decide)).2.1 (by decide) ⟨1, ""⟩ (by decide)⟩

/-- C7: in an update-content call whose preliminary GET succeeds, whenever
the `title` argument is absent the submitted payload's title is the fetched
title verbatim, and — independently — whenever the `content` argument is
absent the submitted payload's body is the fetched body verbatim. -/
theorem update_preserves_title_body
    (putResp : Except String String) (args : Args) (cid : String) (page : ConfluencePage)
    (hid : args.getStr "contentId" = some cid) (hne : cid ≠ "")
    (hclean : (strContains cid "/" || strContains cid "..") = false) :
    (args.getArg "title" = none →
      ∀ p ∈ putBodies (handleUpdateContent (Except.ok page) putResp args).2,
        p.title = page.title) ∧
    (args.getArg "content" = none →
      ∀ p ∈ putBodies (handleUpdateContent (Except.ok page) putResp args).2,
        p.body = page.body) := by
  rw [handleUpdateContent_ok putResp args cid page hid hne hclean]
  constructor
  · intro htitle
    have ht : args.getStrD "title" = "" := by
      simp [Args.getStrD, Args.getStr, htitle]
    rcases hv : args.getNum "version" with _ | v
    · rcases hver : page.version with _ | ver
      · simp only [putBodies_get_only (updGetReq args cid) (by rfl)]
        simp
      · simp only [submitUpdate_trace]
        rw [putBodies_get_put (updGetReq args cid) (by rfl)]
        simp [updatePayload, ht]
    · simp only [submitUpdate_trace]
      rw [putBodies_get_put (updGetReq args cid) (by rfl)]
      simp [updatePayload, ht]
  · intro hcontent
    have hc : args.getStrD "content" = "" := by
      simp [Args.getStrD, Args.getStr, hcontent]
    rcases hv : args.getNum "version" with _ | v
    · rcases hver : page.version with _ | ver
      · simp only [putBodies_get_only (updGetReq args cid) (by rfl)]
        simp
      · simp only [submitUpdate_trace]
        rw [putBodies_get_put (updGetReq args cid) (by rfl)]
        simp [updatePayload, hc]
    · simp only [submitUpdate_trace]
      rw [putBodies_get_put (updGetReq args cid) (by rfl)]
      simp [updatePayload, hc]

/-- C7 witness: two mixed calls — `title` absent with `content` supplied
keeps the fetched title, and `content` absent with `title` supplied keeps
the fetched body. -/
theorem update_preserves_title_body_witness :
    ({ id := "7", title := "T", body := some ⟨some ⟨"C", "storage"⟩⟩,
       version := some ⟨2, ""⟩ } : ConfluencePage).title = "T" ∧
    ({ id := "7", title := "X", body := some ⟨some ⟨"B", "storage"⟩⟩,
       version := some ⟨2, ""⟩ } : ConfluencePage).body = some ⟨some ⟨"B", "storage"⟩⟩ :=
  ⟨(update_preserves_title_body (Except.ok "r")
      [("contentId", JValue.str "7"), ("content", JValue.str "C")] "7"
      { title := "T", version := some ⟨1, ""⟩ }
      (by decide) (by decide) (by decide)).1 (by decide)
      { id := "7", title := "T", body := some ⟨some ⟨"C", "storage"⟩⟩, version := some ⟨2, ""⟩ }
      (by decide),
   (update_preserves_title_body (Except.ok "r")
      [("contentId", JValue.str "7"), ("title", JValue.str "X")] "7"
      { title := "T", body := some ⟨some ⟨"B", "storage"⟩⟩, version := some ⟨1, ""⟩ }
      (by decide) (by decide) (by decide)).2 (by decide)
      { id := "7", title := "X", body := some ⟨some ⟨"B", "storage"⟩⟩, version := some ⟨2, ""⟩ }
      (by decide)⟩

/-- C10 counterexample: when the fetched current item itself has an empty
title, an update with `title` supplied as `""` (equivalently absent) submits
a payload whose title is empty — so the operation can set an empty title. -/
theorem update_empty_title_counterexample :
    (putBodies (handleUpdateContent
        (Except.ok { title := "", version := some ⟨1, ""⟩ }) (Except.ok "r")
        [("contentId", JValue.str "7"), ("title", JValue.str "")]).2).map
      ConfluencePage.title = [""] := by decide

theorem Args.getStr_cons_ne (k : String) (v : JValue) (rest : Args) (k' : String)
    (h : k ≠ k') : Args.getStr ((k, v) :: rest) k' = Args.getStr rest k' := by
  unfold Args.getStr; rw [Args.getArg_cons, if_neg h]

theorem Args.getNum_cons_ne (k : String) (v : JValue) (rest : Args) (k' : String)
    (h : k ≠ k') : Args.getNum ((k, v) :: rest) k' = Args.getNum rest k' := by
  unfold Args.getNum; rw [Args.getArg_cons, if_neg h]

theorem Args.getStrD_cons_ne (k : String) (v : JValue) (rest : Args) (k' : String)
    (h : k ≠ k') : Args.getStrD ((k, v) :: rest) k' = Args.getStrD rest k' := by
  unfold Args.getStrD; rw [Args.getStr_cons_ne k v rest k' h]

theorem Args.getStrD_cons_empty (k : String) (rest : Args) :
    Args.getStrD ((k, JValue.str "") :: rest) k = "" := by
  unfold Args.getStrD Args.getStr
  rw [Args.getArg_cons, if_pos rfl]
  rfl

theorem Args.getStrD_of_none (args : Args) (k : String) (h : args.getArg k = none) :
    Args.getStrD args k = "" := by
  unfold Args.getStrD Args.getStr
  rw [h]
  rfl

/-- `handleUpdateContent` only observes an argument bag through the reads
listed here: bags agreeing on all of them are handled identically. -/
theorem handleUpdateContent_congr (fetched : Except String ConfluencePage)
    (putResp : Except String String) (args' args : Args)
    (hcid : args'.getStr "contentId" = args.getStr "contentId")
    (hver : args'.getNum "version" = args.getNum "version")
    (hT : args'.getStrD "title" = args.getStrD "title")
    (hC : args'.getStrD "content" = args.getStrD "content")
    (hV : args'.getStrD "versionComment" = args.getStrD "versionComment")
    (hlim : args'.getNum "limit" = args.getNum "limit")
    (hst : args'.getNum "start" = args.getNum "start")
    (hex : args'.getStr "expand" = args.getStr "expand") :
    handleUpdateContent fetched putResp args' = handleUpdateContent fetched putResp args := by
  have hq : newQueryWithCommonArgs args' = newQueryWithCommonArgs args := by
    unfold newQueryWithCommonArgs
    rw [hlim, hst, hex]
  have hp : ∀ cid page v, updatePayload args' cid page v = updatePayload args cid page v := by
    intro cid page v
    unfold updatePayload
    rw [hT, hC, hV]
  simp only [handleUpdateContent]
  rw [hcid]
  rcases h : args.getStr "contentId" with _ | cid
  · rfl
  · simp only [hq, hver, hp]

/-- C10 (amended): supplying `title` as the empty string behaves identically
to omitting it, and likewise — independently — for `content`; consequently a
submitted payload can carry an empty title, or a body whose storage value is
empty, only when the fetched current item's title/body is itself that value. -/
theorem update_empty_equals_absent
    (fetched : Except String ConfluencePage) (putResp : Except String String) (args : Args) :
    (args.getArg "title" = none →
      handleUpdateContent fetched putResp (("title", JValue.str "") :: args) =
        handleUpdateContent fetched putResp args) ∧
    (args.getArg "content" = none →
      handleUpdateContent fetched putResp (("content", JValue.str "") :: args) =
        handleUpdateContent fetched putResp args) ∧
    (∀ page cid, fetched = Except.ok page →
      args.getStr "contentId" = some cid → cid ≠ "" →
      (strContains cid "/" || strContains cid "..") = false →
      ∀ p ∈ putBodies (handleUpdateContent fetched putResp args).2,
        (p.title = "" → page.title = "") ∧
        (∀ b, p.body = some b → b.storage.map BodyStorage.value = some "" →
          page.body = some b)) := by
  refine ⟨?_, ?_, ?_⟩
  · intro htitle
    apply handleUpdateContent_congr
    · exact Args.getStr_cons_ne _ _ _ _ (by decide)
    · exact Args.getNum_cons_ne _ _ _ _ (by decide)
    · rw [Args.getStrD_cons_empty, Args.getStrD_of_none args "title" htitle]
    · exact Args.getStrD_cons_ne _ _ _ _ (by decide)
    · exact Args.getStrD_cons_ne _ _ _ _ (by decide)
    · exact Args.getNum_cons_ne _ _ _ _ (by decide)
    · exact Args.getNum_cons_ne _ _ _ _ (by decide)
    · exact Args.getStr_cons_ne _ _ _ _ (by decide)
  · intro hcontent
    apply handleUpdateContent_congr
    · exact Args.getStr_cons_ne _ _ _ _ (by decide)
    · exact Args.getNum_cons_ne _ _ _ _ (by decide)
    · exact Args.getStrD_cons_ne _ _ _ _ (by decide)
    · rw [Args.getStrD_cons_empty, Args.getStrD_of_none args "content" hcontent]
    · exact Args.getStrD_cons_ne _ _ _ _ (by decide)
    · exact Args.getNum_cons_ne _ _ _ _ (by decide)
    · exact Args.getNum_cons_ne _ _ _ _ (by decide)
    · exact Args.getStr_cons_ne _ _ _ _ (by decide)
  · intro page cid hf hid hne hclean
    subst hf
    rw [handleUpdateContent_ok putResp args cid page hid hne hclean]
    rcases hv : args.getNum "version" with _ | v
    · rcases hver : page.version with _ | ver
      · simp only [putBodies_get_only (updGetReq args cid) (by rfl)]
        simp
      · simp only [submitUpdate_trace]
        rw [putBodies_get_put (updGetReq args cid) (by rfl)]
        simp only [List.mem_singleton]
        rintro p rfl
        constructor
        · intro hptitle
          by_cases harg : args.getStrD "title" = ""
          · simpa [updatePayload, harg] using hptitle
          · exact absurd (by simpa [updatePayload, harg] using hptitle) harg
        · intro b hb hbs
          by_cases harg : args.getStrD "content" = ""
          · rw [← hb]; simpa [updatePayload, harg] using hb
          · simp [updatePayload, harg] at hb
            rw [← hb] at hbs
            simp at hbs
            exact absurd hbs harg
    · simp only [submitUpdate_trace]
      rw [putBodies_get_put (updGetReq args cid) (by rfl)]
      simp only [List.mem_singleton]
      rintro p rfl
      constructor
      · intro hptitle
        by_cases harg : args.getStrD "title" = ""
        · simpa [updatePayload, harg] using hptitle
        · exact absurd (by simpa [updatePayload, harg] using hptitle) harg
      · intro b hb hbs
        by_cases harg : args.getStrD "content" = ""
        · rw [← hb]; simpa [updatePayload, harg] using hb
        · simp [updatePayload, harg] at hb
          rw [← hb] at hbs
          simp at hbs
          exact absurd hbs harg

/-- C10 witness: supplying `title = ""` alongside a non-empty `content`
behaves exactly like omitting `title` in the same call. -/
theorem update_empty_equals_absent_witness :
    handleUpdateContent (Except.ok { title := "T", version := some ⟨1, ""⟩ }) (Except.ok "r")
        [("title", JValue.str ""), ("contentId", JValue.str "7"), ("content", JValue.str "C")] =
      handleUpdateContent (Except.ok { title := "T", version := some ⟨1, ""⟩ }) (Except.ok "r")
        [("contentId", JValue.str "7"), ("content", JValue.str "C")] :=
  (update_empty_equals_absent (Except.ok { title := "T", version := some ⟨1, ""⟩ })
    (Except.ok "r") [("contentId", JValue.str "7"), ("content", JValue.str "C")]).1
    (by decide)

theorem replaceQuoteL_eq_bind (l : List Char) :
    replaceQuoteL l = l.flatMap (fun c => if c = '"' then ['\\', '"'] else [c]) := by
  induction l with
  | nil => rfl
  | cons c rest ih =>
    by_cases h : c = '"' <;> simp [replaceQuoteL, h, ih]

/-- C8: list-spaces sends cql exactly `type=space` when `searchText` is
absent, and `type=space AND title ~ "<t>"` — with `<t>` the search text
whose double quotes are each backslash-escaped — when `searchText` is a
non-empty string. -/
theorem list_spaces_cql (raw : Except String String) (args : Args) :
    (args.getArg "searchText" = none →
      (handleListSpaces raw args).2.map (fun r => r.query.lookup "cql") =
        [some "type=space"]) ∧
    (∀ t, args.getStr "searchText" = some t → t ≠ "" →
      (handleListSpaces raw args).2.map (fun r => r.query.lookup "cql") =
        [some ("type=space AND title ~ \"" ++ escapeQuotes t ++ "\"")]) ∧
    (∀ s : String, escapeQuotes s =
      (s.toList.flatMap (fun c => if c = '"' then ['\\', '"'] else [c])).asString) := by
  refine ⟨?_, ?_, ?_⟩
  · intro h
    have hs : args.getStrD "searchText" = "" := by
      simp [Args.getStrD, Args.getStr, h]
    cases raw <;> simp [handleListSpaces, hs, Query.lookup_set_eq]
  · intro t ht hne
    have hs : args.getStrD "searchText" = t := by
      simp [Args.getStrD, ht]
    cases raw <;> simp [handleListSpaces, hs, hne, Query.lookup_set_eq]
  · intro s
    unfold escapeQuotes
    rw [replaceQuoteL_eq_bind]

/-- C8 witness: `searchText` absent sends exactly `type=space`; the search
text `a "q" w` is sent with its double quotes backslash-escaped. -/
theorem list_spaces_cql_witness :
    ((handleListSpaces (Except.ok "x") []).2.map (fun r => r.query.lookup "cql") =
      [some "type=space"]) ∧
    ((handleListSpaces (Except.ok "x") [("searchText", JValue.str "a \"q\" w")]).2.map
        (fun r => r.query.lookup "cql") =
      [some "type=space AND title ~ \"a \\\"q\\\" w\""]) :=
  ⟨(list_spaces_cql (Except.ok "x") []).1 (by decide),
   by
    rw [(list_spaces_cql (Except.ok "x") [("searchText", JValue.str "a \"q\" w")]).2.1
      "a \"q\" w" (by decide) (by decide)]
    decide⟩

theorem newQuery_lookup_limit (args : Args) :
    (newQueryWithCommonArgs args).lookup "limit" =
      some (toString ((args.getNum "limit").getD defaultLimit)) := by
  unfold newQueryWithCommonArgs
  rcases hl : args.getNum "limit" with _ | n <;>
    rcases hs : args.getNum "start" with _ | m <;>
      rcases he : args.getStr "expand" with _ | e <;>
        simp only [hl, hs, he] <;>
        (try split_ifs) <;>
        (repeat first
          | rw [Query.lookup_set_ne _ _ _ _ (by decide : ("limit" : String) ≠ "expand")]
          | rw [Query.lookup_set_ne _ _ _ _ (by decide : ("limit" : String) ≠ "start")]) <;>
        rw [Query.lookup_set_eq] <;> simp

theorem newQuery_lookup_start (args : Args) :
    (newQueryWithCommonArgs args).lookup "start" = (args.getNum "start").map toString := by
  unfold newQueryWithCommonArgs
  rcases hl : args.getNum "limit" with _ | n <;>
    rcases hs : args.getNum "start" with _ | m <;>
      rcases he : args.getStr "expand" with _ | e <;>
        simp only [hl, hs, he] <;>
        (try split_ifs) <;>
        (repeat first
          | rw [Query.lookup_set_ne _ _ _ _ (by decide : ("start" : String) ≠ "expand")]
          | rw [Query.lookup_set_eq]
          | rw [Query.lookup_set_ne _ _ _ _ (by decide : ("start" : String) ≠ "limit")]) <;>
        simp [Query.lookup_nil, Query.empty]

theorem newQuery_lookup_other (args : Args) (k : String)
    (h1 : k ≠ "limit") (h2 : k ≠ "start") (h3 : k ≠ "expand") :
    (newQueryWithCommonArgs args).lookup k = none := by
  unfold newQueryWithCommonArgs
  rcases hl : args.getNum "limit" with _ | n <;>
    rcases hs : args.getNum "start" with _ | m <;>
      rcases he : args.getStr "expand" with _ | e <;>
        simp only [hl, hs, he] <;>
        (try split_ifs) <;>
        (repeat first
          | rw [Query.lookup_set_ne _ _ _ _ h3]
          | rw [Query.lookup_set_ne _ _ _ _ h2]
          | rw [Query.lookup_set_ne _ _ _ _ h1]) <;>
        rfl

theorem handleUpdateContent_trace_head (fetched : Except String ConfluencePage)
    (putResp : Except String String) (args : Args) (cid : String)
    (hid : args.getStr "contentId" = some cid) (hne : cid ≠ "")
    (hclean : (strContains cid "/" || strContains cid "..") = false) :
    (handleUpdateContent fetched putResp args).2.head? = some (updGetReq args cid) := by
  cases fetched with
  | error e =>
    simp only [handleUpdateContent, hid]
    rw [if_neg hne, if_neg (by simp [hclean])]
    rfl
  | ok page =>
    rw [handleUpdateContent_ok putResp args cid page hid hne hclean]
    rcases args.getNum "version" with _ | v
    · rcases page.version with _ | ver
      · rfl
      · simp [submitUpdate_trace]
    · simp [submitUpdate_trace]

/-- C2 counterexample: in a concrete update-content call the preliminary GET
query also carries `limit=25`, so `expand=body.storage,version,space` is not
the only parameter. -/
theorem update_get_query_counterexample :
    (handleUpdateContent (Except.ok {}) (Except.ok "r")
        [("contentId", JValue.str "7")]).2 =
      [⟨"GET", "/content/7",
        [("limit", "25"), ("expand", "body.storage,version,space")], none⟩] ∧
    ([("limit", "25"), ("expand", "body.storage,version,space")] : Query).lookup "limit" =
      some "25" := by decide

/-- C2 (amended): the preliminary GET of update-content always carries
`expand=body.storage,version,space`; it additionally carries the common
parameters — `limit` (the supplied value, else the default 25) and, exactly
when a numeric `start` argument was supplied, `start` — and nothing else. -/
theorem update_get_query_shape
    (fetched : Except String ConfluencePage) (putResp : Except String String)
    (args : Args) (cid : String)
    (hid : args.getStr "contentId" = some cid) (hne : cid ≠ "")
    (hclean : (strContains cid "/" || strContains cid "..") = false) :
    (handleUpdateContent fetched putResp args).2.head? = some (updGetReq args cid) ∧
    (updGetReq args cid).query.lookup "expand" = some "body.storage,version,space" ∧
    (updGetReq args cid).query.lookup "limit" =
      some (toString ((args.getNum "limit").getD defaultLimit)) ∧
    (updGetReq args cid).query.lookup "start" = (args.getNum "start").map toString ∧
    (∀ k, k ≠ "expand" → k ≠ "limit" → k ≠ "start" →
      (updGetReq args cid).query.lookup k = none) := by
  refine ⟨handleUpdateContent_trace_head fetched putResp args cid hid hne hclean,
    ?_, ?_, ?_, ?_⟩
  · exact Query.lookup_set_eq _ _ _
  · show ((newQueryWithCommonArgs args).set "expand" _).lookup "limit" = _
    rw [Query.lookup_set_ne _ _ _ _ (by decide : ("limit" : String) ≠ "expand")]
    exact newQuery_lookup_limit args
  · show ((newQueryWithCommonArgs args).set "expand" _).lookup "start" = _
    rw [Query.lookup_set_ne _ _ _ _ (by decide : ("start" : String) ≠ "expand")]
    exact newQuery_lookup_start args
  · intro k hk1 hk2 hk3
    show ((newQueryWithCommonArgs args).set "expand" _).lookup k = none
    rw [Query.lookup_set_ne _ _ _ _ hk1]
    exact newQuery_lookup_other args k hk2 hk3 hk1

/-- C2 witness: concrete call with `limit = 7` and `start = 3` supplied. -/
theorem update_get_query_shape_witness :
    ((handleUpdateContent (Except.ok ({} : ConfluencePage)) (Except.ok "r")
        [("contentId", JValue.str "9"), ("limit", JValue.num 7), ("start", JValue.num 3)]).2.head? =
      some (updGetReq [("contentId", JValue.str "9"), ("limit", JValue.num 7),
        ("start", JValue.num 3)] "9")) ∧
    ((updGetReq [("contentId", JValue.str "9"), ("limit", JValue.num 7),
        ("start", JValue.num 3)] "9").query.lookup "expand" =
      some "body.storage,version,space") ∧
    ((updGetReq [("contentId", JValue.str "9"), ("limit", JValue.num 7),
        ("start", JValue.num 3)] "9").query.lookup "limit" =
      some (toString ((Args.getNum [("contentId", JValue.str "9"), ("limit", JValue.num 7),
        ("start", JValue.num 3)] "limit").getD defaultLimit))) ∧
    ((updGetReq [("contentId", JValue.str "9"), ("limit", JValue.num 7),
        ("start", JValue.num 3)] "9").query.lookup "start" =
      (Args.getNum [("contentId", JValue.str "9"), ("limit", JValue.num 7),
        ("start", JValue.num 3)] "start").map toString) ∧
    (∀ k, k ≠ "expand" → k ≠ "limit" → k ≠ "start" →
      (updGetReq [("contentId", JValue.str "9"), ("limit", JValue.num 7),
        ("start", JValue.num 3)] "9").query.lookup k = none) :=
  update_get_query_shape (Except.ok ({} : ConfluencePage)) (Except.ok "r")
    [("contentId", JValue.str "9"), ("limit", JValue.num 7), ("start", JValue.num 3)] "9"
    (by decide) (by decide) (by decide)

theorem normalizeAPIPath_contains (p : String) :
    containsL "/rest/api".toList (normalizeAPIPath p).toList = true := by
  unfold normalizeAPIPath
  by_cases hc : strContains p "/rest/api" = true
  · rw [if_pos hc]; exact hc
  · rw [if_neg hc]
    have he : (strTrimSuffix p "/" ++ "/rest/api").toList =
        (strTrimSuffix p "/").toList ++ "/rest/api".toList := by
      simp [String.toList]
    rw [he]
    exact containsL_append_self _ _ (by decide)

theorem normalizeAPIPath_of_contains (p : String)
    (h : strContains p "/rest/api" = true) : normalizeAPIPath p = p := by
  unfold normalizeAPIPath; rw [if_pos h]

theorem resolveURL_ok_shape (env : Env) (u : URL) (h : resolveURL env = Except.ok u) :
    strHasPrefix u.scheme "http" = true ∧ ∃ p, u.path = normalizeAPIPath p := by
  unfold resolveURL at h
  split at h
  · exact absurd h (by simp)
  · split at h
    · exact absurd h (by simp)
    · split at h
      · exact absurd h (by simp)
      · rename_i u' heq
        split at h
        · exact absurd h (by simp)
        · rename_i hscheme
          injection h with h2
          subst h2
          refine ⟨?_, u'.path, rfl⟩
          simpa using hscheme

/-- C3 counterexample: `CONFLUENCE_BASE_URL=httpx://h` resolves successfully
but with scheme `httpx`, which is neither `http` nor `https`; and
`CONFLUENCE_BASE_URL=example.com/rest/api/v2/rest/api` resolves to a path
containing the API-root segment twice, not exactly once. -/
theorem config_invariant_counterexample :
    (resolveURL ⟨"t", "httpx://h", "", ""⟩ = Except.ok ⟨"httpx", "h", "/rest/api"⟩ ∧
      loadConfig ⟨"t", "httpx://h", "", ""⟩ = Except.ok ⟨"httpx://h/rest/api", "t"⟩ ∧
      ¬("httpx" = "http" ∨ "httpx" = "https")) ∧
    (resolveURL ⟨"t", "example.com/rest/api/v2/rest/api", "", ""⟩ =
        Except.ok ⟨"https", "example.com", "/rest/api/v2/rest/api"⟩ ∧
      countOccur "/rest/api".toList "/rest/api/v2/rest/api".toList = 2) := by decide

/-- C3 (amended): whenever configuration resolution succeeds, the resulting
base URL's scheme starts with `http`, and its path contains the API-root
segment `/rest/api` at least once. -/
theorem config_scheme_and_api_root (env : Env) (u : URL)
    (h : resolveURL env = Except.ok u) :
    strHasPrefix u.scheme "http" = true ∧
    1 ≤ countOccur "/rest/api".toList u.path.toList := by
  obtain ⟨hs, p, hp⟩ := resolveURL_ok_shape env u h
  refine ⟨hs, ?_⟩
  rw [hp]
  exact countOccur_pos _ _ (by decide) (normalizeAPIPath_contains p)

/-- C3 witness: a plain `https` host resolves with scheme `https` and one
API-root segment. -/
theorem config_scheme_and_api_root_witness :
    strHasPrefix (URL.mk "https" "h" "/rest/api").scheme "http" = true ∧
    1 ≤ countOccur "/rest/api".toList (URL.mk "https" "h" "/rest/api").path.toList :=
  config_scheme_and_api_root ⟨"t", "https://h", "", ""⟩ ⟨"https", "h", "/rest/api"⟩ (by decide)

/-- C6: configuration resolution is deterministic (pure: equal inputs give
equal outputs), normalization leaves a path that already ends in the
API-root segment unchanged, and the path of any successfully resolved URL is
a fixed point of the normalization (idempotence). -/
theorem resolve_deterministic_idempotent :
    (∀ env : Env, loadConfig env = loadConfig env ∧ resolveURL env = resolveURL env) ∧
    (∀ p : String, strHasSuffix p "/rest/api" = true → normalizeAPIPath p = p) ∧
    (∀ env u, resolveURL env = Except.ok u → normalizeAPIPath u.path = u.path) := by
  refine ⟨fun env => ⟨rfl, rfl⟩, ?_, ?_⟩
  · intro p hp
    exact normalizeAPIPath_of_contains p (containsL_of_suffix _ _ (by decide) hp)
  · intro env u h
    obtain ⟨_, p, hp⟩ := resolveURL_ok_shape env u h
    rw [hp]
    exact normalizeAPIPath_of_contains _ (normalizeAPIPath_contains p)

/-- C6 witness: a path already ending in the segment is left unchanged, and
a resolved URL's path is a fixed point of normalization. -/
theorem resolve_deterministic_idempotent_witness :
    normalizeAPIPath "/wiki/rest/api" = "/wiki/rest/api" ∧
    normalizeAPIPath (URL.mk "https" "h" "/rest/api").path =
      (URL.mk "https" "h" "/rest/api").path :=
  ⟨resolve_deterministic_idempotent.2.1 "/wiki/rest/api" (by decide),
   resolve_deterministic_idempotent.2.2 ⟨"t", "https://h", "", ""⟩
     ⟨"https", "h", "/rest/api"⟩ (by decide)⟩

/-- `sub` occurs as a contiguous substring of `s`. -/
def strSub (sub s : String) : Prop := ∃ a b, s = a ++ sub ++ b

theorem strSub_extend (sub pre s : String) (h : strSub sub s) : strSub sub (pre ++ s) := by
  obtain ⟨a, b, rfl⟩ := h
  exact ⟨pre ++ a, b, by rw [String.append_assoc, String.append_assoc, String.append_assoc]⟩

theorem strSub_status_msg (st mid tail : String) :
    strSub st (st ++ mid ++ tail) ∧ strSub tail (st ++ mid ++ tail) := by
  constructor
  · exact ⟨"", mid ++ tail, by
      rw [String.empty_append, String.append_assoc]⟩
  · exact ⟨st ++ mid, "", by rw [String.append_empty]⟩

theorem strSub_status_api (st tail : String) :
    strSub st ("API error (status " ++ st ++ "): " ++ tail) ∧
    strSub tail ("API error (status " ++ st ++ "): " ++ tail) := by
  constructor
  · have h2 := strSub_extend st "API error (status " (st ++ "): " ++ tail)
      (strSub_status_msg st "): " tail).1
    have e : "API error (status " ++ (st ++ "): " ++ tail) =
        "API error (status " ++ st ++ "): " ++ tail := by
      simp [String.append_assoc]
    rwa [e] at h2
  · exact ⟨"API error (status " ++ st ++ "): ", "", by rw [String.append_empty]⟩

/-- C9: every remote response with status ≥ 400 surfaces as an error.  The
raw-bytes helper (`doRequest`) produces a message carrying the status code
and the full untruncated body; the JSON helper (`getJSON`) produces a
message carrying the status code and at most 1024 bytes of the body; and
each of the five operation handlers turns such a failure into a user-facing
error result whose message contains the numeric status code (for
update-content: the GET failing, and the PUT failing under either an
explicit version argument or a version derived from the fetched item). -/
theorem status_error_propagation (resp : HTTPResponse) (h : 400 ≤ resp.status) :
    (doRequest resp =
        Except.error ("API error (status " ++ toString resp.status ++ "): " ++ resp.body) ∧
      strSub (toString resp.status)
        ("API error (status " ++ toString resp.status ++ "): " ++ resp.body) ∧
      strSub resp.body
        ("API error (status " ++ toString resp.status ++ "): " ++ resp.body)) ∧
    (∀ decode, getJSON decode resp =
        Except.error ("API error (status " ++ toString resp.status ++ "): " ++
          takeBytes 1024 resp.body) ∧
      (takeBytes 1024 resp.body).length ≤ 1024) ∧
    (∀ args cid, args.getStr "contentId" = some cid → cid ≠ "" →
        (strContains cid "/" || strContains cid "..") = false →
      (∃ m, (handleGetContent (doRequest resp) args).1 = ToolResult.error m ∧
        strSub (toString resp.status) m) ∧
      (∀ decode putResp, ∃ m,
        (handleUpdateContent (getJSON decode resp) putResp args).1 = ToolResult.error m ∧
        strSub (toString resp.status) m) ∧
      (∀ page v, args.getNum "version" = some v → ∃ m,
        (handleUpdateContent (Except.ok page) (doRequest resp) args).1 = ToolResult.error m ∧
        strSub (toString resp.status) m) ∧
      (∀ page ver, args.getNum "version" = none → page.version = some ver → ∃ m,
        (handleUpdateContent (Except.ok page) (doRequest resp) args).1 = ToolResult.error m ∧
        strSub (toString resp.status) m)) ∧
    (∀ args cql, args.getStr "cql" = some cql → cql ≠ "" →
      ∃ m, (handleSearchContent (doRequest resp) args).1 = ToolResult.error m ∧
        strSub (toString resp.status) m) ∧
    (∀ args t sk c, args.getStr "title" = some t → t ≠ "" →
        args.getStr "spaceKey" = some sk → sk ≠ "" →
        args.getStr "content" = some c → c ≠ "" →
      ∃ m, (handleCreateContent (doRequest resp) args).1 = ToolResult.error m ∧
        strSub (toString resp.status) m) ∧
    (∀ args, ∃ m, (handleListSpaces (doRequest resp) args).1 = ToolResult.error m ∧
        strSub (toString resp.status) m) := by
  have hdo : doRequest resp =
      Except.error ("API error (status " ++ toString resp.status ++ "): " ++ resp.body) := by
    unfold doRequest; rw [if_pos h]
  have hjson : ∀ decode, getJSON decode resp =
      Except.error ("API error (status " ++ toString resp.status ++ "): " ++
        takeBytes 1024 resp.body) := by
    intro decode; unfold getJSON; rw [if_pos h]
  have hlen : (takeBytes 1024 resp.body).length ≤ 1024 := by
    show (resp.body.toList.take 1024).asString.length ≤ 1024
    have e : (resp.body.toList.take 1024).asString.length =
        (resp.body.toList.take 1024).length := rfl
    rw [e, List.length_take]
    exact Nat.min_le_left _ _
  refine ⟨⟨hdo, (strSub_status_api _ _).1, (strSub_status_api _ _).2⟩,
    fun decode => ⟨hjson decode, hlen⟩, ?_, ?_, ?_, ?_⟩
  · intro args cid hid hne hclean
    refine ⟨?_, ?_, ?_, ?_⟩
    · refine ⟨"error getting content: " ++
        ("API error (status " ++ toString resp.status ++ "): " ++ resp.body), ?_,
        strSub_extend _ _ _ (strSub_status_api _ _).1⟩
      simp only [handleGetContent, hid]
      rw [if_neg hne, if_neg (by simp [hclean]), hdo]
    · intro decode putResp
      refine ⟨"failed to retrieve current content: " ++
        ("API error (status " ++ toString resp.status ++ "): " ++ takeBytes 1024 resp.body), ?_,
        strSub_extend _ _ _ (strSub_status_api _ _).1⟩
      simp only [handleUpdateContent, hid]
      rw [if_neg hne, if_neg (by simp [hclean]), hjson decode]
    · intro page v hv
      refine ⟨"error updating content: " ++
        ("API error (status " ++ toString resp.status ++ "): " ++ resp.body), ?_,
        strSub_extend _ _ _ (strSub_status_api _ _).1⟩
      rw [handleUpdateContent_ok (doRequest resp) args cid page hid hne hclean]
      simp only [hv]
      unfold submitUpdate
      rw [hdo]
    · intro page ver hv hver
      refine ⟨"error updating content: " ++
        ("API error (status " ++ toString resp.status ++ "): " ++ resp.body), ?_,
        strSub_extend _ _ _ (strSub_status_api _ _).1⟩
      rw [handleUpdateContent_ok (doRequest resp) args cid page hid hne hclean]
      simp only [hv, hver]
      unfold submitUpdate
      rw [hdo]
  · intro args cql hid hne
    refine ⟨"error searching content: " ++
      ("API error (status " ++ toString resp.status ++ "): " ++ resp.body), ?_,
      strSub_extend _ _ _ (strSub_status_api _ _).1⟩
    simp only [handleSearchContent, hid]
    rw [if_neg hne, hdo]
  · intro args t sk c ht hte hsk hske hc hce
    refine ⟨"error creating content: " ++
      ("API error (status " ++ toString resp.status ++ "): " ++ resp.body), ?_,
      strSub_extend _ _ _ (strSub_status_api _ _).1⟩
    simp only [handleCreateContent, ht, hsk, hc]
    rw [if_neg hte, if_neg hske, if_neg hce, hdo]
  · intro args
    refine ⟨"error listing spaces: " ++
      ("API error (status " ++ toString resp.status ++ "): " ++ resp.body), ?_,
      strSub_extend _ _ _ (strSub_status_api _ _).1⟩
    simp only [handleListSpaces]
    rw [hdo]

/-- C9 witness: a concrete 404 response with body `nf`. -/
theorem status_error_propagation_witness :
    (doRequest ⟨404, "nf"⟩ =
      Except.error ("API error (status " ++ toString (404 : Nat) ++ "): " ++ "nf")) ∧
    ((takeBytes 1024 (HTTPResponse.mk 404 "nf").body).length ≤ 1024) :=
  ⟨(status_error_propagation ⟨404, "nf"⟩ (by decide)).1.1,
   ((status_error_propagation ⟨404, "nf"⟩ (by decide)).2.1
     (fun _ => Except.error "d")).2⟩
